import Mathlib

/-
Verification of the Playwright-Service browser-session core.

Shallow embedding of:
  * src/sessions.ts            — session registry and tab multiplexer
    (createSession, getSession, getActivePage, destroySession,
     createTab, setActiveTab, closeTab)
  * src/ws/connection.ts       — URL normalization (normalizeUrl),
    the per-message control dispatcher inside handleConnection, and
    the binary frame-streaming loop.

Modelling conventions:
  * JS numbers used as coordinates are modelled as rationals (exact
    arithmetic); tab indices arriving from the wire are modelled as Int
    (they can be negative), registry-internal indices as Nat (every
    assignment in the source is provably nonnegative).
  * Playwright Page handles are records carrying the observable bits the
    claims need: an identifier, the isClosed() flag, the fixed viewport
    set at creation, and an environment oracle closeFails saying whether
    page.close() would throw.  Likewise browserCloseFails for
    browser.close().
  * The registry (a JS Map) is a function from session id to
    Option SessionData; Map.set / Map.delete are pointwise updates.
  * Fallible code is embedded with Except; a try/catch that swallows the
    error is embedded by casing on the error and continuing.
-/

namespace Playwright

/-- Model of a Playwright Page handle: an identifier, the isClosed() flag,
the viewport fixed by setViewportSize at creation, and the oracle
closeFails telling whether a page.close() call would throw. -/
structure Page where
  pid : Nat
  isClosed : Bool
  closeFails : Bool
  vw : ℚ
  vh : ℚ
deriving DecidableEq, Repr

/-- SessionData from src/sessions.ts: the ordered page list and the active
tab index, together with the browser-process handle observables (whether
browser.close() would fail, and whether it has been closed). -/
structure SessionData where
  pages : List Page
  activeIndex : Nat
  browserCloseFails : Bool
  browserClosed : Bool
deriving DecidableEq, Repr

/-- The sessions Map of src/sessions.ts, as a function map. -/
abbrev Registry := String → Option SessionData

/-- The empty sessions map. -/
def emptyRegistry : Registry := fun _ => none

/-- Map.set. -/
def Registry.set (reg : Registry) (sid : String) (s : SessionData) : Registry :=
  fun k => if k = sid then some s else reg k

/-- Map.delete. -/
def Registry.erase (reg : Registry) (sid : String) : Registry :=
  fun k => if k = sid then none else reg k

/-- Fresh page as produced by browser.newPage() followed by
setViewportSize(1024, 576) in src/sessions.ts. -/
def freshPage (pid : Nat) (closeFails : Bool) : Page :=
  { pid := pid, isClosed := false, closeFails := closeFails, vw := 1024, vh := 576 }

/-- createSession (src/sessions.ts): launches a browser, opens one page with
viewport 1024x576 navigated to the start URL, and stores
pages = [page], activeIndex = 0 under a fresh id.  Only the success path
mutates the registry (the Map.set is the last step); a launch failure
leaves the registry unchanged.  The oracles bfail / pfail say whether the
later browser.close() / page.close() calls would throw. -/
def createSession (reg : Registry) (sid : String) (pid : Nat)
    (bfail pfail : Bool) : Registry :=
  Registry.set reg sid
    { pages := [freshPage pid pfail], activeIndex := 0,
      browserCloseFails := bfail, browserClosed := false }

/-- getSession (src/sessions.ts): pure Map lookup. -/
def getSession (reg : Registry) (sid : String) : Option SessionData :=
  reg sid

/-- getActivePage (src/sessions.ts): session.pages[session.activeIndex],
undefined when the session is missing or the index is out of range. -/
def getActivePage (reg : Registry) (sid : String) : Option Page :=
  match reg sid with
  | none => none
  | some s => s.pages[s.activeIndex]?

/-- The for-loop inside destroySession: pages are closed in order; a
page.close() that throws aborts the loop (the exception escapes to the
surrounding catch), leaving the failing page and every later page
untouched.  Returns the pages after the attempted closes and the thrown
error, if any. -/
def destroyPagesLoop : List Page → List Page × Option String
  | [] => ([], none)
  | p :: rest =>
    if p.isClosed then
      let r := destroyPagesLoop rest
      (p :: r.1, r.2)
    else if p.closeFails then
      (p :: rest, some "page close failed")
    else
      let r := destroyPagesLoop rest
      ({ p with isClosed := true } :: r.1, r.2)

/-- destroySession (src/sessions.ts).  The whole page loop plus
browser.close() sits in one try/catch whose handler only logs, and
sessions.delete(sessionId) runs afterwards unconditionally.  The result
carries the registry after the call and the final state of the session's
handles (none when the id was unknown and the function returned early);
an Except.error would mean an exception escaped to the caller. -/
def destroySessionE (reg : Registry) (sid : String) :
    Except String (Registry × Option SessionData) :=
  match reg sid with
  | none => Except.ok (reg, none)
  | some s =>
    let r := destroyPagesLoop s.pages
    let sFinal : SessionData :=
      match r.2 with
      | some _ => { s with pages := r.1 }
      | none =>
        if s.browserCloseFails then { s with pages := r.1 }
        else { s with pages := r.1, browserClosed := true }
    Except.ok (Registry.erase reg sid, some sFinal)

/-- Runs destroySessionE; the error branch is unreachable (the source
catches everything), the default value is never used. -/
def destroySessionRun (reg : Registry) (sid : String) :
    Registry × Option SessionData :=
  match destroySessionE reg sid with
  | Except.ok v => v
  | Except.error _ => (reg, none)

/-- Registry component of destroySession. -/
def destroySessionReg (reg : Registry) (sid : String) : Registry :=
  (destroySessionRun reg sid).1

/-- createTab (src/sessions.ts): unknown session returns null (no
registry change).  Otherwise newPage + setViewportSize(1024, 576) and the
optional goto all happen before the push, so a failure there also leaves
the registry unchanged; on success the page is pushed at the end and
activeIndex becomes pages.length - 1, i.e. the old length. -/
def createTab (reg : Registry) (sid : String) (pid : Nat)
    (pfail : Bool) : Registry :=
  match reg sid with
  | none => reg
  | some s =>
    Registry.set reg sid
      { s with pages := s.pages ++ [freshPage pid pfail],
               activeIndex := s.pages.length }

/-- setActiveTab (src/sessions.ts): out-of-range indices (including
negative ones) are silently ignored. -/
def setActiveTab (reg : Registry) (sid : String) (index : Int) : Registry :=
  match reg sid with
  | none => reg
  | some s =>
    if index < 0 ∨ (s.pages.length : Int) ≤ index then reg
    else Registry.set reg sid { s with activeIndex := index.toNat }

/-- closeTab (src/sessions.ts): unknown session or out-of-range index is a
no-op.  Otherwise the page is spliced out (its close() failure is caught
per-tab and leaves the registry unaffected); if no pages remain the whole
session is destroyed through destroySession, else activeIndex is clamped
to pages.length - 1 whenever it is not smaller than the new length. -/
def closeTab (reg : Registry) (sid : String) (index : Int) : Registry :=
  match reg sid with
  | none => reg
  | some s =>
    if index < 0 ∨ (s.pages.length : Int) ≤ index then reg
    else
      let i := index.toNat
      let remaining := s.pages.eraseIdx i
      if remaining.length = 0 then
        destroySessionReg (Registry.set reg sid { s with pages := remaining }) sid
      else
        let newActive :=
          if remaining.length ≤ s.activeIndex then remaining.length - 1
          else s.activeIndex
        Registry.set reg sid { s with pages := remaining, activeIndex := newActive }

/-- ASCII lowercasing, as applied by the WHATWG URL parser to schemes and
hosts and by String.prototype.toLowerCase on the characters that occur
there. -/
def lowerChar (c : Char) : Char :=
  if 65 ≤ c.toNat ∧ c.toNat ≤ 90 then Char.ofNat (c.toNat + 32) else c

/-- JS String.prototype.trim. -/
def jsTrim (s : String) : String :=
  String.mk (((s.data.dropWhile Char.isWhitespace).reverse.dropWhile
    Char.isWhitespace).reverse)

/-- Scheme characters per the WHATWG URL standard. -/
def isSchemeChar (c : Char) : Bool :=
  c.isAlpha || c.isDigit || c == '+' || c == '-' || c == '.'

/-- Boolean test that a character list begins with the given pattern. -/
def listBeginsWith : List Char → List Char → Bool
  | _, [] => true
  | [], _ :: _ => false
  | a :: as, b :: bs => a == b && listBeginsWith as bs

/-- Parsed URL record: the fragment of the WHATWG URL model that the
source observes through new URL(...).protocol and .toString().  For the
schemes http and https (the only ones normalizeUrl ever serializes) the
host and port are parsed and the serialization re-normalizes: lowercased
scheme and host, empty and default ports dropped, empty path rendered as
a single slash.  Every other scheme keeps its remainder opaque; treating
the further WHATWG special schemes (ws, wss, ftp, file) opaquely is
harmless here because only their protocol, which is non-http(s) either
way, is ever inspected.  Queries and fragments are kept textually inside
the path, and userinfo, IPv6 brackets and percent-decoding in hosts are
rejected rather than parsed; no theorem below depends on an input using
those features. -/
structure URLRec where
  scheme : String
  host : String
  port : Option Nat
  special : Bool
  path : String
deriving DecidableEq, Repr

/-- Serialization, new URL(...).toString(). -/
def URLRec.href (u : URLRec) : String :=
  if u.special then
    u.scheme ++ "://" ++ u.host ++
      (match u.port with
       | none => ""
       | some p => ":" ++ toString p) ++ u.path
  else u.scheme ++ ":" ++ u.path

/-- Reads the scheme: a leading alphabetic character, then scheme
characters, then a colon.  Returns the lowercased scheme and the
remainder; none models the TypeError new URL throws on a missing
scheme. -/
def splitScheme (cs : List Char) : Option (String × List Char) :=
  let run := cs.takeWhile isSchemeChar
  match run, cs.drop run.length with
  | [], _ => none
  | c :: _, ':' :: rest =>
    if c.isAlpha then some (String.mk (run.map lowerChar), rest) else none
  | _, _ => none

/-- Characters that make a host invalid (forbidden host code points of the
WHATWG standard, restricted to the ones representable in this model; the
colon also lands here because splitHostPort has already removed the port
separator, so a remaining colon means a doubled one). -/
def forbiddenHostChar (c : Char) : Bool :=
  c == ' ' || c == '<' || c == '>' || c == '^' || c == '|' ||
  c == '[' || c == ']' || c == '%' || c == ':'

/-- Splits an authority at the last colon into host and port candidate. -/
def splitHostPort (auth : List Char) : List Char × Option (List Char) :=
  match (auth.reverse).span (fun c => !(c == ':')) with
  | (portRev, ':' :: hostRev) => (hostRev.reverse, some portRev.reverse)
  | _ => (auth, none)

/-- Parses the remainder of an http(s) URL after the colon, following the
WHATWG rules the source relies on: any run of slashes or backslashes is
skipped, the authority extends to the first slash, backslash, question
mark or hash, the rest is the path.  An empty host, a userinfo section, a
forbidden host character or a non-numeric port makes the parse fail; an
empty or default port is dropped; the host is lowercased; an empty path
serializes as a single slash. -/
def parseSpecialRest (scheme : String) (cs : List Char) : Option URLRec :=
  let body := cs.dropWhile (fun c => c == '/' || c == '\\')
  let auth := body.takeWhile (fun c => !(c == '/' || c == '\\' || c == '?' || c == '#'))
  let rest := body.drop auth.length
  if auth.contains '@' then none
  else
    match splitHostPort auth with
    | (host, portPart) =>
      if host.isEmpty then none
      else if host.any forbiddenHostChar then none
      else
        let portVal : Option (Option Nat) :=
          match portPart with
          | none => some none
          | some [] => some none
          | some ds =>
            if ds.all Char.isDigit then
              let n := ds.foldl (fun a c => a * 10 + (c.toNat - 48)) 0
              if (scheme = "http" ∧ n = 80) ∨ (scheme = "https" ∧ n = 443) then
                some none
              else some (some n)
            else none
        match portVal with
        | none => none
        | some port =>
          some { scheme := scheme, host := String.mk (host.map lowerChar),
                 port := port, special := true,
                 path := if rest.isEmpty then "/" else String.mk rest }

/-- Model of the WHATWG URL constructor without a base argument; none
models a thrown TypeError. -/
def newURL (input : String) : Option URLRec :=
  match splitScheme input.data with
  | none => none
  | some (scheme, rest) =>
    if scheme = "http" ∨ scheme = "https" then parseSpecialRest scheme rest
    else
      some { scheme := scheme, host := "", port := none, special := false,
             path := String.mk rest }

/-- The test of the regular expression checking for a leading http:// or
https:// prefix, case-insensitively, in normalizeUrl. -/
def startsWithHttpSlashes (url : String) : Bool :=
  listBeginsWith (url.data.map lowerChar) "http://".data ||
  listBeginsWith (url.data.map lowerChar) "https://".data

/-- Final parse-and-check of normalizeUrl: parse (a failure escapes to the
caller like the new URL exception does) and insist on an http(s)
protocol. -/
def checkParsed (u : String) : Except String String :=
  match newURL u with
  | none => Except.error "Invalid URL"
  | some p =>
    if p.special then Except.ok p.href
    else Except.error ("Protocolo no soportado: " ++ p.scheme ++ ":")

/-- Second half of normalizeUrl, after the first try/catch: prepend the
https scheme exactly when the string does not already match the
http(s)-slashes prefix, then parse and check. -/
def normalizeFallback (url : String) : Except String String :=
  checkParsed (if startsWithHttpSlashes url then url else "https://" ++ url)

/-- normalizeUrl (src/ws/connection.ts): trim, reject the empty string,
return the serialization when the input parses with an http(s) protocol,
otherwise fall through to the prefix-correcting branch.  Except.error
models an exception thrown to the caller. -/
def normalizeUrl (rawUrl : String) : Except String String :=
  let url := jsTrim rawUrl
  if url.data.isEmpty then Except.error "URL vacia"
  else
    match newURL url with
    | some p => if p.special then Except.ok p.href else normalizeFallback url
    | none => normalizeFallback url

/-- Modelled from the wording of the specification sentence behind C7:
whenever the input fails to parse as an absolute http(s) URL, the https
prefix is prepended unconditionally before re-parsing.  It differs from
normalizeUrl only in that prepend condition. -/
def normalizeUrlClaimed (rawUrl : String) : Except String String :=
  let url := jsTrim rawUrl
  if url.data.isEmpty then Except.error "URL vacia"
  else
    match newURL url with
    | some p =>
      if p.special then Except.ok p.href else checkParsed ("https://" ++ url)
    | none => checkParsed ("https://" ++ url)

/-- Observable success of a normalization result. -/
def exceptOk (e : Except String String) : Bool :=
  match e with
  | Except.ok _ => true
  | Except.error _ => false

/-- Client control messages (src/ws/types.ts) after JSON.parse succeeded;
the unknown constructor is the catch-all variant of the union: any
syntactically valid JSON object whose type tag is none of the recognized
ones, carrying that tag. -/
inductive ClientMessage where
  | click (x y : ℚ)
  | typeText (text : String)
  | goto (url : String)
  | keydown (key : String)
  | keyup (key : String)
  | scroll (deltaX deltaY : ℚ)
  | newTab (url : Option String)
  | switchTab (index : Int)
  | closeTab (index : Int)
  | unknown (tag : String)
deriving DecidableEq, Repr

/-- Server control messages (src/ws/types.ts).  Only the session-derivable
parts of tabs_state are modelled (activeIndex and the page ids in order);
per-tab url and title live in the browser, outside this model. -/
inductive ServerMessage where
  | sessionStarted (sessionId : String) (width height : Nat)
  | error (message : String)
  | tabsState (activeIndex : Nat) (tabIds : List Nat)
deriving DecidableEq, Repr

/-- Browser-driving calls the dispatcher issues against the active page. -/
inductive BrowserAction where
  | mouseClick (x y : ℚ)
  | keyboardType (text : String) (delayMs : Nat)
  | keyDown (key : String)
  | keyUp (key : String)
  | wheel (deltaX deltaY : ℚ)
  | navigate (url : String)
deriving DecidableEq, Repr

/-- Outcome of handling one already-parsed client message: registry after
the call, control messages written to the socket in order, browser
actions dispatched, and whether the handler closed the connection (the
message callback never does). -/
structure HandleResult where
  registry : Registry
  outputs : List ServerMessage
  actions : List BrowserAction
  closeConn : Bool

/-- sendTabsState (src/ws/connection.ts): no message when the session is
gone, otherwise one tabs_state carrying activeIndex and the tabs in
order. -/
def tabsStateMsg (reg : Registry) (sid : String) : List ServerMessage :=
  match getSession reg sid with
  | none => []
  | some s => [ServerMessage.tabsState s.activeIndex (s.pages.map Page.pid)]

/-- Error text of the outer catch of the dispatcher. -/
def actionErrorMsg (e : String) : ServerMessage :=
  ServerMessage.error ("Error ejecutando accion: " ++ e)

/-- The body of the ws message callback in handleConnection
(src/ws/connection.ts), for a message that already passed JSON.parse and
with sessionId set: looks the session up (a missing one is answered with
an error message), then dispatches on the type tag.  freshPid and pfail
feed the page handle a new_tab would create; navigation is assumed to
succeed once its URL was accepted, and a normalizeUrl failure inside
new_tab is the exception the outer catch converts to an error message.
No branch ever closes the connection. -/
def handleMessage (reg : Registry) (sid : String) (freshPid : Nat)
    (pfail : Bool) (msg : ClientMessage) : HandleResult :=
  match getSession reg sid with
  | none => ⟨reg, [ServerMessage.error "Sesion no encontrada"], [], false⟩
  | some _ =>
    match msg with
    | ClientMessage.click x y =>
      (match getActivePage reg sid with
       | none => ⟨reg, [], [], false⟩
       | some page =>
         ⟨reg, [], [BrowserAction.mouseClick (x * page.vw) (y * page.vh)], false⟩)
    | ClientMessage.typeText text =>
      (match getActivePage reg sid with
       | none => ⟨reg, [], [], false⟩
       | some _ => ⟨reg, [], [BrowserAction.keyboardType text 50], false⟩)
    | ClientMessage.goto url =>
      (match getActivePage reg sid with
       | none => ⟨reg, [], [], false⟩
       | some _ =>
         match normalizeUrl url with
         | Except.ok nu =>
           ⟨reg, tabsStateMsg reg sid, [BrowserAction.navigate nu], false⟩
         | Except.error _ =>
           ⟨reg, ServerMessage.error "No se pudo navegar a la URL" ::
              tabsStateMsg reg sid, [], false⟩)
    | ClientMessage.keydown key =>
      (match getActivePage reg sid with
       | none => ⟨reg, [], [], false⟩
       | some _ => ⟨reg, [], [BrowserAction.keyDown key], false⟩)
    | ClientMessage.keyup key =>
      (match getActivePage reg sid with
       | none => ⟨reg, [], [], false⟩
       | some _ => ⟨reg, [], [BrowserAction.keyUp key], false⟩)
    | ClientMessage.scroll dx dy =>
      (match getActivePage reg sid with
       | none => ⟨reg, [], [], false⟩
       | some _ => ⟨reg, [], [BrowserAction.wheel dx dy], false⟩)
    | ClientMessage.newTab urlOpt =>
      (match (match urlOpt with
              | none => Except.ok (none : Option String)
              | some u =>
                if u = "" then Except.ok none else (normalizeUrl u).map some) with
       | Except.error e => ⟨reg, [actionErrorMsg e], [], false⟩
       | Except.ok _ =>
         let reg2 := createTab reg sid freshPid pfail
         ⟨reg2, tabsStateMsg reg2 sid, [], false⟩)
    | ClientMessage.switchTab index =>
      let reg2 := setActiveTab reg sid index
      ⟨reg2, tabsStateMsg reg2 sid, [], false⟩
    | ClientMessage.closeTab index =>
      let reg2 := closeTab reg sid index
      ⟨reg2,
       (match getSession reg2 sid with
        | some _ => tabsStateMsg reg2 sid
        | none => []), [], false⟩
    | ClientMessage.unknown _ => ⟨reg, [], [], false⟩

/-- Constants of the frame streaming loop (src/ws/connection.ts). -/
def MAX_BUFFERED_BYTES : Nat := 512 * 1024

/-- Target cadence of the frame streaming loop, in milliseconds. -/
def FRAME_INTERVAL_MS : Nat := 100

/-- One observation of the mutable environment the streaming loop reads in
an iteration: the closed flag of the connection, whether
getActivePage(sessionId) yields a page, that page's isClosed() flag, the
socket's bufferedAmount in bytes, and whether the screenshot or the send
would throw. -/
structure FrameCycleEnv where
  closed : Bool
  hasActivePage : Bool
  pageClosed : Bool
  bufferedAmount : Nat
  captureFails : Bool
deriving DecidableEq, Repr

/-- What one iteration of the streaming loop does. -/
inductive FrameStep where
  | stop
  | errorStop
  | skip (sleepMs : Nat)
  | frame (sleepMs : Nat)
deriving DecidableEq, Repr

/-- One iteration of the streaming loop in handleConnection, in source
order: exit when closed or without an active page; a closed page throws
into the catch (error message, then break); backpressure above the byte
threshold skips the capture and sleeps 50 ms before retrying; a capture
or send failure also lands in the catch; otherwise one binary frame is
sent and the loop sleeps until the next cycle. -/
def frameCycle (env : FrameCycleEnv) : FrameStep :=
  if env.closed then FrameStep.stop
  else if !env.hasActivePage then FrameStep.stop
  else if env.pageClosed then FrameStep.errorStop
  else if env.closed then FrameStep.stop
  else if MAX_BUFFERED_BYTES < env.bufferedAmount then FrameStep.skip 50
  else if env.captureFails then FrameStep.errorStop
  else FrameStep.frame FRAME_INTERVAL_MS

/-- Trace of the loop over successive environment observations; a stop or
errorStop ends the run, later observations are unreached. -/
def frameRun : List FrameCycleEnv → List FrameStep
  | [] => []
  | e :: rest =>
    match frameCycle e with
    | FrameStep.stop => [FrameStep.stop]
    | FrameStep.errorStop => [FrameStep.errorStop]
    | FrameStep.skip n => FrameStep.skip n :: frameRun rest
    | FrameStep.frame n => FrameStep.frame n :: frameRun rest

/-- Number of binary frames a run pushes to the transport. -/
def framesSent (steps : List FrameStep) : Nat :=
  steps.countP (fun s =>
    match s with
    | FrameStep.frame _ => true
    | _ => false)

/-- The tab operations of the wire protocol, with the environment inputs
they consume (a fresh page id and its close-failure oracle for newTab,
the raw wire index for the other two). -/
inductive TabOp where
  | newTab (pid : Nat) (pfail : Bool)
  | switchTab (index : Int)
  | closeTab (index : Int)
deriving DecidableEq, Repr

/-- Registry effect of one tab operation on one session.  A createTab
whose newPage or goto throws leaves the registry unchanged, which is the
same as not performing the operation, so only the completing runs need
modelling here. -/
def applyOp (reg : Registry) (sid : String) : TabOp → Registry
  | TabOp.newTab pid pfail => createTab reg sid pid pfail
  | TabOp.switchTab index => setActiveTab reg sid index
  | TabOp.closeTab index => closeTab reg sid index

/-- Left-to-right application of a sequence of tab operations. -/
def applyOps (reg : Registry) (sid : String) : List TabOp → Registry
  | [] => reg
  | op :: ops => applyOps (applyOp reg sid op) sid ops

/-- Registries the program can actually build: everything generated from
the empty sessions map by the five mutating registry entry points. -/
inductive Reachable : Registry → Prop where
  | empty : Reachable emptyRegistry
  | create (reg : Registry) (sid : String) (pid : Nat) (bfail pfail : Bool) :
      Reachable reg → Reachable (createSession reg sid pid bfail pfail)
  | tab (reg : Registry) (sid : String) (pid : Nat) (pfail : Bool) :
      Reachable reg → Reachable (createTab reg sid pid pfail)
  | switch (reg : Registry) (sid : String) (index : Int) :
      Reachable reg → Reachable (setActiveTab reg sid index)
  | close (reg : Registry) (sid : String) (index : Int) :
      Reachable reg → Reachable (closeTab reg sid index)
  | destroy (reg : Registry) (sid : String) :
      Reachable reg → Reachable (destroySessionReg reg sid)

/-- Session well-formedness: at least one tab and an in-range active
index. -/
def SessionInv (s : SessionData) : Prop :=
  s.pages ≠ [] ∧ s.activeIndex < s.pages.length

/-- Registry well-formedness: every stored session is well-formed. -/
def RegistryInv (reg : Registry) : Prop :=
  ∀ sid s, reg sid = some s → SessionInv s

end Playwright

namespace Playwright

/-- Pointwise view of Registry.set. -/
theorem Registry.set_apply (reg : Registry) (sid k : String) (s : SessionData) :
    Registry.set reg sid s k = if k = sid then some s else reg k := rfl

/-- Pointwise view of the registry component of destroySession: the id is
gone, everything else is untouched (also when the id was already absent). -/
theorem destroySessionReg_apply (reg : Registry) (sid k : String) :
    destroySessionReg reg sid k = if k = sid then none else reg k := by
  unfold destroySessionReg destroySessionRun destroySessionE
  cases h : reg sid with
  | none =>
    simp only [h]
    by_cases hk : k = sid
    · simp [hk, h]
    · simp [hk]
  | some s => simp [h, Registry.erase]

/-- Well-formedness already follows from an in-range active index. -/
theorem sessionInv_of_index_lt (s : SessionData)
    (h : s.activeIndex < s.pages.length) : SessionInv s := by
  refine ⟨?_, h⟩
  intro hnil
  rw [hnil] at h
  simp at h

/-- createSession preserves registry well-formedness. -/
theorem registryInv_createSession (reg : Registry) (sid : String) (pid : Nat)
    (bfail pfail : Bool) (h : RegistryInv reg) :
    RegistryInv (createSession reg sid pid bfail pfail) := by
  intro k s hk
  unfold createSession at hk
  rw [Registry.set_apply] at hk
  by_cases e : k = sid
  · rw [if_pos e] at hk
    cases hk
    exact sessionInv_of_index_lt _ (by simp)
  · rw [if_neg e] at hk
    exact h k s hk

/-- createTab preserves registry well-formedness. -/
theorem registryInv_createTab (reg : Registry) (sid : String) (pid : Nat)
    (pfail : Bool) (h : RegistryInv reg) :
    RegistryInv (createTab reg sid pid pfail) := by
  intro k s hk
  unfold createTab at hk
  cases h0 : reg sid with
  | none => rw [h0] at hk; exact h k s hk
  | some s0 =>
    simp only [h0] at hk
    rw [Registry.set_apply] at hk
    by_cases e : k = sid
    · rw [if_pos e] at hk
      cases hk
      apply sessionInv_of_index_lt
      show s0.pages.length < (s0.pages ++ [freshPage pid pfail]).length
      simp
    · rw [if_neg e] at hk
      exact h k s hk

/-- setActiveTab preserves registry well-formedness. -/
theorem registryInv_setActiveTab (reg : Registry) (sid : String) (index : Int)
    (h : RegistryInv reg) : RegistryInv (setActiveTab reg sid index) := by
  intro k s hk
  unfold setActiveTab at hk
  cases h0 : reg sid with
  | none => rw [h0] at hk; exact h k s hk
  | some s0 =>
    simp only [h0] at hk
    by_cases hr : index < 0 ∨ (s0.pages.length : Int) ≤ index
    · rw [if_pos hr] at hk; exact h k s hk
    · rw [if_neg hr] at hk
      rw [Registry.set_apply] at hk
      by_cases e : k = sid
      · rw [if_pos e] at hk
        cases hk
        push_neg at hr
        apply sessionInv_of_index_lt
        show index.toNat < s0.pages.length
        omega
      · rw [if_neg e] at hk
        exact h k s hk

/-- closeTab preserves registry well-formedness. -/
theorem registryInv_closeTab (reg : Registry) (sid : String) (index : Int)
    (h : RegistryInv reg) : RegistryInv (closeTab reg sid index) := by
  intro k s hk
  unfold closeTab at hk
  cases h0 : reg sid with
  | none => rw [h0] at hk; exact h k s hk
  | some s0 =>
    simp only [h0] at hk
    by_cases hr : index < 0 ∨ (s0.pages.length : Int) ≤ index
    · rw [if_pos hr] at hk; exact h k s hk
    · rw [if_neg hr] at hk
      push_neg at hr
      by_cases hz : (s0.pages.eraseIdx index.toNat).length = 0
      · rw [if_pos hz] at hk
        rw [destroySessionReg_apply] at hk
        by_cases e : k = sid
        · rw [if_pos e] at hk; cases hk
        · rw [if_neg e] at hk
          rw [Registry.set_apply, if_neg e] at hk
          exact h k s hk
      · rw [if_neg hz] at hk
        rw [Registry.set_apply] at hk
        by_cases e : k = sid
        · rw [if_pos e] at hk
          cases hk
          apply sessionInv_of_index_lt
          show (if (s0.pages.eraseIdx index.toNat).length ≤ s0.activeIndex then
              (s0.pages.eraseIdx index.toNat).length - 1
            else s0.activeIndex) < (s0.pages.eraseIdx index.toNat).length
          split <;> omega
        · rw [if_neg e] at hk
          exact h k s hk

/-- destroySession preserves registry well-formedness. -/
theorem registryInv_destroy (reg : Registry) (sid : String)
    (h : RegistryInv reg) : RegistryInv (destroySessionReg reg sid) := by
  intro k s hk
  rw [destroySessionReg_apply] at hk
  by_cases e : k = sid
  · rw [if_pos e] at hk; cases hk
  · rw [if_neg e] at hk; exact h k s hk

/-- Every reachable registry is well-formed. -/
theorem reachable_registryInv (reg : Registry) (h : Reachable reg) :
    RegistryInv reg := by
  induction h with
  | empty => intro k s hk; cases hk
  | create reg sid pid bfail pfail _ ih =>
    exact registryInv_createSession reg sid pid bfail pfail ih
  | tab reg sid pid pfail _ ih => exact registryInv_createTab reg sid pid pfail ih
  | switch reg sid index _ ih => exact registryInv_setActiveTab reg sid index ih
  | close reg sid index _ ih => exact registryInv_closeTab reg sid index ih
  | destroy reg sid _ ih => exact registryInv_destroy reg sid ih

/-- Tab operations stay inside the reachable set. -/
theorem reachable_applyOp (reg : Registry) (sid : String) (op : TabOp)
    (h : Reachable reg) : Reachable (applyOp reg sid op) := by
  cases op with
  | newTab pid pfail => exact Reachable.tab reg sid pid pfail h
  | switchTab index => exact Reachable.switch reg sid index h
  | closeTab index => exact Reachable.close reg sid index h

/-- Sequences of tab operations stay inside the reachable set. -/
theorem reachable_applyOps (reg : Registry) (sid : String) (ops : List TabOp)
    (h : Reachable reg) : Reachable (applyOps reg sid ops) := by
  induction ops generalizing reg with
  | nil => exact h
  | cons op ops ih => exact ih (applyOp reg sid op) (reachable_applyOp reg sid op h)

/-- A tab operation on an absent session id is a registry no-op. -/
theorem applyOp_absent (reg : Registry) (sid : String) (op : TabOp)
    (h : reg sid = none) : applyOp reg sid op = reg := by
  cases op with
  | newTab pid pfail => unfold applyOp createTab; rw [h]
  | switchTab index => unfold applyOp setActiveTab; rw [h]
  | closeTab index => unfold applyOp closeTab; rw [h]

/-- Tab-operation sequences on an absent session id are registry no-ops. -/
theorem applyOps_absent (reg : Registry) (sid : String) (ops : List TabOp)
    (h : reg sid = none) : applyOps reg sid ops = reg := by
  induction ops with
  | nil => rfl
  | cons op ops ih =>
    unfold applyOps
    rw [applyOp_absent reg sid op h]
    exact ih

/-- getActivePage is absent whenever the session lookup is. -/
theorem getActivePage_absent (reg : Registry) (sid : String)
    (h : reg sid = none) : getActivePage reg sid = none := by
  unfold getActivePage
  rw [h]

end Playwright

namespace Playwright

/-- C1 counterexample.  On a session with four tabs and activeIndex 1,
closing index 0 (which is at or before the activeIndex) leaves three tabs
and activeIndex 1, while the claim demands activeIndex = len(tabs)-1 = 2:
the code only clamps when the prior activeIndex exceeds the new bound. -/
theorem closeTab_clamp_claim_false :
    ((getSession (setActiveTab (createTab (createTab (createTab
        (createSession emptyRegistry "s" 0 false false) "s" 1 false) "s" 2 false)
        "s" 3 false) "s" 1) "s").map
      (fun t => (t.pages.length, t.activeIndex)) = some (4, 1))
    ∧ ((getSession (closeTab (setActiveTab (createTab (createTab (createTab
        (createSession emptyRegistry "s" 0 false false) "s" 1 false) "s" 2 false)
        "s" 3 false) "s" 1) "s" 0) "s").map
      (fun t => (t.pages.length, t.activeIndex)) = some (3, 1))
    ∧ (1 : Nat) ≠ 3 - 1 := by
  refine ⟨by decide, by decide, by decide⟩

/-- C1 (amended): closing an in-range tab index of a session with at least
two tabs leaves one tab fewer and sets activeIndex to
min(previous activeIndex, new length - 1): it is clamped to len(tabs)-1
exactly when the previous activeIndex exceeds the new bound, and is
unchanged otherwise (in particular it is not moved when the removed index
was at or before it). -/
theorem closeTab_rebalance_min (reg : Registry) (sid : String) (s : SessionData)
    (i : Nat) (hs : getSession reg sid = some s) (h2 : 2 ≤ s.pages.length)
    (hi : i < s.pages.length) :
    ∃ t, getSession (closeTab reg sid (i : Int)) sid = some t
      ∧ t.pages.length = s.pages.length - 1
      ∧ t.activeIndex = min s.activeIndex (s.pages.length - 2) := by
  unfold getSession at hs ⊢
  unfold closeTab
  simp only [hs, Int.toNat_natCast]
  have hrange : ¬((i : Int) < 0 ∨ (s.pages.length : Int) ≤ (i : Int)) := by omega
  rw [if_neg hrange]
  have hlen : (s.pages.eraseIdx i).length = s.pages.length - 1 :=
    List.length_eraseIdx_of_lt hi
  have hz : ¬((s.pages.eraseIdx i).length = 0) := by omega
  rw [if_neg hz]
  rw [Registry.set_apply, if_pos rfl]
  refine ⟨_, rfl, by simp only; omega, ?_⟩
  simp only
  rw [hlen, Nat.min_def]
  split <;> split <;> omega

/-- Witness for closeTab_rebalance_min: three tabs, activeIndex 2, closing
index 0 leaves two tabs and activeIndex min(2, 1) = 1. -/
theorem closeTab_rebalance_min_witness :
    ∃ t, getSession (closeTab (setActiveTab (createTab (createTab
        (createSession emptyRegistry "w" 0 false false) "w" 1 false) "w" 2 false)
        "w" 2) "w" (0 : Nat)) "w" = some t
      ∧ t.pages.length = 3 - 1
      ∧ t.activeIndex = min 2 (3 - 2) :=
  closeTab_rebalance_min _ "w"
    { pages := [freshPage 0 false, freshPage 1 false, freshPage 2 false],
      activeIndex := 2, browserCloseFails := false, browserClosed := false }
    0 (by decide) (by decide) (by decide)

/-- C3: the try/catch in destroySession wraps the whole cleanup loop, so a
session whose first tab refuses to close comes out of destroySession with
its second tab still open and the browser process never terminated, even
though the record is removed and no exception reaches the caller.  The
final handle state equals the initial one: nothing got closed. -/
theorem destroy_tab_failure_partial_cleanup :
    (destroySessionE (Registry.set emptyRegistry "s"
        { pages := [freshPage 0 true, freshPage 1 false], activeIndex := 0,
          browserCloseFails := false, browserClosed := false }) "s"
      = Except.ok (Registry.erase (Registry.set emptyRegistry "s"
          { pages := [freshPage 0 true, freshPage 1 false], activeIndex := 0,
            browserCloseFails := false, browserClosed := false }) "s",
        some { pages := [freshPage 0 true, freshPage 1 false], activeIndex := 0,
               browserCloseFails := false, browserClosed := false }))
    ∧ getSession (destroySessionReg (Registry.set emptyRegistry "s"
        { pages := [freshPage 0 true, freshPage 1 false], activeIndex := 0,
          browserCloseFails := false, browserClosed := false }) "s") "s" = none
    ∧ (freshPage 1 false).isClosed = false := by
  refine ⟨rfl, rfl, rfl⟩

/-- C4: starting from a session created with one tab, any sequence of
new_tab / switch_tab / close_tab operations keeps 0 < len(tabs) and
activeIndex < len(tabs) whenever the session still exists, and once the
session is gone (its tab count reached zero, or it was destroyed) no
further sequence of operations makes getSession or getActivePage return
it again. -/
theorem tab_ops_preserve_invariant (sid : String) (pid : Nat) (bfail pfail : Bool)
    (ops : List TabOp) :
    (∀ s, getSession (applyOps (createSession emptyRegistry sid pid bfail pfail)
        sid ops) sid = some s →
        0 < s.pages.length ∧ s.activeIndex < s.pages.length)
    ∧ (getSession (applyOps (createSession emptyRegistry sid pid bfail pfail)
        sid ops) sid = none →
        ∀ more : List TabOp,
          getSession (applyOps (applyOps (createSession emptyRegistry sid pid
            bfail pfail) sid ops) sid more) sid = none
          ∧ getActivePage (applyOps (applyOps (createSession emptyRegistry sid pid
            bfail pfail) sid ops) sid more) sid = none) := by
  constructor
  · intro s hs
    have hreach : Reachable (applyOps (createSession emptyRegistry sid pid bfail pfail) sid ops) :=
      reachable_applyOps _ sid ops
        (Reachable.create _ sid pid bfail pfail Reachable.empty)
    have hinv := reachable_registryInv _ hreach sid s hs
    exact ⟨List.length_pos.mpr hinv.1, hinv.2⟩
  · intro hnone more
    rw [applyOps_absent (applyOps (createSession emptyRegistry sid pid bfail pfail)
      sid ops) sid more hnone]
    exact ⟨hnone, getActivePage_absent
      (applyOps (createSession emptyRegistry sid pid bfail pfail) sid ops) sid hnone⟩

/-- Witness for tab_ops_preserve_invariant: the fresh one-tab session
satisfies the invariant, and after close_tab 0 empties it the session is
unreachable even after a further new_tab. -/
theorem tab_ops_preserve_invariant_witness :
    (0 < (SessionData.mk [freshPage 0 false] 0 false false).pages.length
      ∧ (SessionData.mk [freshPage 0 false] 0 false false).activeIndex
          < (SessionData.mk [freshPage 0 false] 0 false false).pages.length)
    ∧ getSession (applyOps (applyOps (createSession emptyRegistry "s" 0 false false)
        "s" [TabOp.closeTab 0]) "s" [TabOp.newTab 1 false]) "s" = none :=
  ⟨(tab_ops_preserve_invariant "s" 0 false false []).1 _ (by decide),
   ((tab_ops_preserve_invariant "s" 0 false false [TabOp.closeTab 0]).2
      (by decide) [TabOp.newTab 1 false]).1⟩

/-- C5: destroySession never lets an exception escape, destroying twice has
the same effect on the registry as destroying once, and destroying an
unknown or already-destroyed id leaves the registry untouched. -/
theorem destroy_idempotent_total :
    (∀ reg sid, ∃ v, destroySessionE reg sid = Except.ok v)
    ∧ (∀ reg sid, destroySessionReg (destroySessionReg reg sid) sid
        = destroySessionReg reg sid)
    ∧ (∀ reg sid, getSession reg sid = none → destroySessionReg reg sid = reg) := by
  refine ⟨?_, ?_, ?_⟩
  · intro reg sid
    unfold destroySessionE
    cases hk : reg sid with
    | none => simp only [hk]; exact ⟨_, rfl⟩
    | some s => simp only [hk]; exact ⟨_, rfl⟩
  · intro reg sid
    funext k
    simp only [destroySessionReg_apply]
    by_cases e : k = sid <;> simp [e]
  · intro reg sid h
    funext k
    rw [destroySessionReg_apply]
    by_cases e : k = sid
    · rw [if_pos e, e]
      exact h.symm
    · rw [if_neg e]

/-- Witness for destroy_idempotent_total: destroying an id absent from the
empty registry is a no-op. -/
theorem destroy_idempotent_total_witness :
    destroySessionReg emptyRegistry "a" = emptyRegistry :=
  destroy_idempotent_total.2.2 emptyRegistry "a" rfl

/-- C9: createTab appends the new page at the end of the tab sequence and
makes it active (activeIndex = previous length); in particular two
new_tab operations on a fresh one-tab session give three tabs with
activeIndex 2. -/
theorem new_tab_appends_and_activates :
    (∀ (reg : Registry) (sid : String) (s : SessionData) (pid : Nat) (pfail : Bool),
        getSession reg sid = some s →
        getSession (createTab reg sid pid pfail) sid =
          some { s with pages := s.pages ++ [freshPage pid pfail],
                        activeIndex := s.pages.length })
    ∧ ((getSession (createTab (createTab (createSession emptyRegistry "s" 0 false false)
        "s" 1 false) "s" 2 false) "s").map (fun t => (t.pages.length, t.activeIndex))
        = some (3, 2)) := by
  constructor
  · intro reg sid s pid pfail hs
    unfold getSession at hs ⊢
    unfold createTab
    simp only [hs]
    rw [Registry.set_apply, if_pos rfl]
  · decide

/-- Witness for new_tab_appends_and_activates applied to a concrete
two-tab session. -/
theorem new_tab_appends_and_activates_witness :
    getSession (createTab (createTab (createSession emptyRegistry "w" 0 false false)
        "w" 1 false) "w" 2 false) "w" =
      some { pages := [freshPage 0 false, freshPage 1 false] ++ [freshPage 2 false],
             activeIndex := [freshPage 0 false, freshPage 1 false].length,
             browserCloseFails := false, browserClosed := false } :=
  new_tab_appends_and_activates.1 _ "w"
    { pages := [freshPage 0 false, freshPage 1 false], activeIndex := 1,
      browserCloseFails := false, browserClosed := false } 2 false (by decide)

/-- C10: on every reachable registry, getActivePage answers exactly when
getSession does: reachable sessions always hold a non-empty tab list with
an in-range activeIndex, so the active-tab lookup is absent exactly when
the session lookup is. -/
theorem activePage_iff_getSession (reg : Registry) (h : Reachable reg)
    (sid : String) :
    ((getActivePage reg sid).isSome = true ↔ (getSession reg sid).isSome = true) := by
  have hinvr := reachable_registryInv reg h
  unfold getActivePage getSession
  cases hk : reg sid with
  | none => simp
  | some s =>
    simp only [hk]
    rw [List.getElem?_eq_getElem (hinvr sid s hk).2]
    simp

/-- Witness for activePage_iff_getSession on a freshly created session. -/
theorem activePage_iff_getSession_witness :
    (getActivePage (createSession emptyRegistry "a" 0 false false) "a").isSome = true :=
  (activePage_iff_getSession (createSession emptyRegistry "a" 0 false false)
    (Reachable.create emptyRegistry "a" 0 false false Reachable.empty) "a").mpr
    (by decide)

end Playwright

namespace Playwright

/-- C2 counterexample.  A syntactically valid control message with the
unrecognized type tag "frobnicate", handled on a live session, produces
no output at all — in particular no error message — and the connection
stays open: the default case of the dispatcher only logs. -/
theorem unknown_type_no_error_sent :
    (handleMessage (createSession emptyRegistry "s" 0 false false) "s" 1 false
        (ClientMessage.unknown "frobnicate")).outputs = []
    ∧ (handleMessage (createSession emptyRegistry "s" 0 false false) "s" 1 false
        (ClientMessage.unknown "frobnicate")).closeConn = false := by
  exact ⟨rfl, rfl⟩

/-- C2 (amended): a syntactically valid JSON control message whose type tag
is unrecognized, received while the session is alive, is ignored (logged
only): no message is sent back, no browser action is dispatched, the
registry is unchanged and the connection stays open. -/
theorem unknown_type_ignored (reg : Registry) (sid : String) (s : SessionData)
    (freshPid : Nat) (pfail : Bool) (tag : String)
    (hs : getSession reg sid = some s) :
    handleMessage reg sid freshPid pfail (ClientMessage.unknown tag)
      = ⟨reg, [], [], false⟩ := by
  unfold getSession at hs
  unfold handleMessage
  simp only [getSession, hs]

/-- Witness for unknown_type_ignored on a concrete live session. -/
theorem unknown_type_ignored_witness :
    handleMessage (createSession emptyRegistry "w" 0 false false) "w" 1 false
      (ClientMessage.unknown "nope")
      = ⟨createSession emptyRegistry "w" 0 false false, [], [], false⟩ :=
  unknown_type_ignored (createSession emptyRegistry "w" 0 false false) "w"
    { pages := [freshPage 0 false], activeIndex := 0,
      browserCloseFails := false, browserClosed := false } 1 false "nope" rfl

/-- C8: a click message with normalized coordinates x, y handled on a
session whose active page has viewport (vw, vh) dispatches exactly one
pointer click, at the exact products (x * vw, y * vh), and sends nothing
back. -/
theorem click_pixel_scaling (reg : Registry) (sid : String) (freshPid : Nat)
    (pfail : Bool) (x y : ℚ) (page : Page)
    (hx0 : 0 ≤ x) (hx1 : x ≤ 1) (hy0 : 0 ≤ y) (hy1 : y ≤ 1)
    (hp : getActivePage reg sid = some page) :
    (handleMessage reg sid freshPid pfail (ClientMessage.click x y)).actions
      = [BrowserAction.mouseClick (x * page.vw) (y * page.vh)]
    ∧ (handleMessage reg sid freshPid pfail (ClientMessage.click x y)).outputs
      = [] := by
  have hsome : ∃ s, reg sid = some s := by
    unfold getActivePage at hp
    cases hk : reg sid with
    | none => rw [hk] at hp; cases hp
    | some s => exact ⟨s, rfl⟩
  obtain ⟨s, hs⟩ := hsome
  unfold handleMessage
  simp only [getSession, hs, hp]
  exact ⟨trivial, trivial⟩

/-- Witness for click_pixel_scaling: a click at (1/2, 1/4) on the fresh
1024x576 session lands at (512, 144). -/
theorem click_pixel_scaling_witness :
    ((handleMessage (createSession emptyRegistry "c" 0 false false) "c" 1 false
        (ClientMessage.click (1/2) (1/4))).actions
      = [BrowserAction.mouseClick ((1/2 : ℚ) * (freshPage 0 false).vw)
          ((1/4 : ℚ) * (freshPage 0 false).vh)]
    ∧ (handleMessage (createSession emptyRegistry "c" 0 false false) "c" 1 false
        (ClientMessage.click (1/2) (1/4))).outputs = [])
    ∧ ((1/2 : ℚ) * (freshPage 0 false).vw, (1/4 : ℚ) * (freshPage 0 false).vh)
      = ((512 : ℚ), (144 : ℚ)) :=
  ⟨click_pixel_scaling (createSession emptyRegistry "c" 0 false false) "c" 1 false
      (1/2) (1/4) (freshPage 0 false)
      (by norm_num) (by norm_num) (by norm_num) (by norm_num) (by decide),
   by norm_num [freshPage]⟩

/-- C6: whenever the buffered outbound byte count strictly exceeds the
512 KiB threshold at a cycle start (and the loop has not already
terminated), the cycle captures and sends nothing and sleeps the 50 ms
backoff before retrying; a trace whose every observation is above the
threshold sends zero frames (none are queued: a skip cycle emits
nothing); and a cycle observing the buffer at or below the threshold with
a healthy page sends its frame at the configured cadence again. -/
theorem frame_loop_backpressure :
    (∀ env : FrameCycleEnv, env.closed = false → env.hasActivePage = true →
        env.pageClosed = false → MAX_BUFFERED_BYTES < env.bufferedAmount →
        frameCycle env = FrameStep.skip 50)
    ∧ (∀ trace : List FrameCycleEnv,
        (∀ env ∈ trace, MAX_BUFFERED_BYTES < env.bufferedAmount) →
        framesSent (frameRun trace) = 0)
    ∧ (∀ env : FrameCycleEnv, env.closed = false → env.hasActivePage = true →
        env.pageClosed = false → env.captureFails = false →
        env.bufferedAmount ≤ MAX_BUFFERED_BYTES →
        frameCycle env = FrameStep.frame FRAME_INTERVAL_MS) := by
  refine ⟨?_, ?_, ?_⟩
  · intro env h1 h2 h3 h4
    unfold frameCycle
    simp [h1, h2, h3, h4]
  · intro trace h
    induction trace with
    | nil => rfl
    | cons e rest ih =>
      have he := h e (List.mem_cons_self e rest)
      have hrest : ∀ env ∈ rest, MAX_BUFFERED_BYTES < env.bufferedAmount :=
        fun env hm => h env (List.mem_cons_of_mem e hm)
      have hstep : frameCycle e = FrameStep.stop ∨ frameCycle e = FrameStep.errorStop
          ∨ frameCycle e = FrameStep.skip 50 := by
        unfold frameCycle
        by_cases c1 : e.closed
        · simp [c1]
        · by_cases c2 : e.hasActivePage
          · by_cases c3 : e.pageClosed
            · simp [c1, c2, c3]
            · simp [c1, c2, c3, he]
          · simp [c1, c2]
      unfold frameRun
      rcases hstep with hc | hc | hc <;> rw [hc]
      · rfl
      · rfl
      · show framesSent (FrameStep.skip 50 :: frameRun rest) = 0
        unfold framesSent
        rw [List.countP_cons]
        have := ih hrest
        unfold framesSent at this
        simpa using this
  · intro env h1 h2 h3 h4 h5
    unfold frameCycle
    simp [h1, h2, h3, h4, Nat.not_lt.mpr h5]

/-- Witness for frame_loop_backpressure: a 600000-byte backlog skips, a
trace of two over-threshold observations sends zero frames, and a
1000-byte backlog sends the frame. -/
theorem frame_loop_backpressure_witness :
    frameCycle ⟨false, true, false, 600000, false⟩ = FrameStep.skip 50
    ∧ framesSent (frameRun [⟨false, true, false, 600000, false⟩,
        ⟨false, true, false, 700000, true⟩]) = 0
    ∧ frameCycle ⟨false, true, false, 1000, false⟩
        = FrameStep.frame FRAME_INTERVAL_MS :=
  ⟨frame_loop_backpressure.1 _ rfl rfl rfl (by decide),
   frame_loop_backpressure.2.1 _ (by decide),
   frame_loop_backpressure.2.2 _ rfl rfl rfl rfl (by decide)⟩

end Playwright

namespace Playwright

/-- Helper: a parse success needs a non-empty input. -/
theorem newURL_ne_empty (s : String) (p : URLRec) (h : newURL s = some p) :
    s.data.isEmpty = false := by
  cases hd : s.data with
  | nil =>
    unfold newURL splitScheme at h
    rw [hd] at h
    simp at h
  | cons c cs => rfl

/-- Helper: Boolean emptiness from list non-emptiness. -/
theorem isEmpty_false_of_ne (l : List Char) (h : l ≠ []) : l.isEmpty = false := by
  cases l with
  | nil => exact absurd rfl h
  | cons a as => rfl

/-- C7 counterexample.  The input "http://" fails to parse (empty host),
so by the claim the https prefix would be prepended and the result
re-parsed; but "https://http://" is a valid URL of scheme https (host
"http", empty port, path "//"), so the claimed algorithm accepts and
navigates to "https://http//", while the code — which skips the prepend
for any input already matching the http(s)-prefix pattern — re-parses
"http://" itself and throws. -/
theorem normalizeUrl_prepend_claim_false :
    exceptOk (normalizeUrl "http://") = false
    ∧ normalizeUrlClaimed "http://" = Except.ok "https://http//"
    ∧ newURL "http://" = none
    ∧ startsWithHttpSlashes "http://" = true := by
  exact ⟨rfl, rfl, rfl, rfl⟩

/-- C7 (amended): after trimming, (1) an input that parses with an http(s)
protocol navigates to its serialization; (2) an input that fails to parse
as absolute http(s) and does not already start with http:// or https://
(case-insensitively) gets the https prefix prepended and is re-parsed;
(3) an input that fails to parse as absolute http(s) but does start with
such a prefix is re-parsed unchanged — for these inputs the re-parse
fails again and the URL is rejected; (4) whenever the scheme after
normalization is not http or https the URL is rejected with an error;
and (5) "example.com" normalizes to "https://example.com/". -/
theorem normalizeUrl_normalization :
    (∀ url p, newURL (jsTrim url) = some p → p.special = true →
        normalizeUrl url = Except.ok p.href)
    ∧ (∀ url, (jsTrim url).data ≠ [] →
        (newURL (jsTrim url) = none ∨
          (∃ p, newURL (jsTrim url) = some p ∧ p.special = false)) →
        startsWithHttpSlashes (jsTrim url) = false →
        normalizeUrl url = checkParsed ("https://" ++ jsTrim url))
    ∧ (∀ url, (jsTrim url).data ≠ [] →
        (newURL (jsTrim url) = none ∨
          (∃ p, newURL (jsTrim url) = some p ∧ p.special = false)) →
        startsWithHttpSlashes (jsTrim url) = true →
        normalizeUrl url = checkParsed (jsTrim url))
    ∧ (∀ u p, newURL u = some p → p.special = false →
        ∃ e, checkParsed u = Except.error e)
    ∧ normalizeUrl "example.com" = Except.ok "https://example.com/" := by
  refine ⟨?_, ?_, ?_, ?_, rfl⟩
  · intro url p hp hspec
    have hne := newURL_ne_empty (jsTrim url) p hp
    unfold normalizeUrl
    simp [hne, hp, hspec]
  · intro url hne hfail hsw
    have hemp := isEmpty_false_of_ne _ hne
    unfold normalizeUrl normalizeFallback
    rcases hfail with hn | ⟨p, hp, hsp⟩
    · simp [hemp, hn, hsw]
    · simp [hemp, hp, hsp, hsw]
  · intro url hne hfail hsw
    have hemp := isEmpty_false_of_ne _ hne
    unfold normalizeUrl normalizeFallback
    rcases hfail with hn | ⟨p, hp, hsp⟩
    · simp [hemp, hn, hsw]
    · simp [hemp, hp, hsp, hsw]
  · intro u p hu hsp
    unfold checkParsed
    simp [hu, hsp]

/-- Witness for normalizeUrl_normalization: clause (1) at
"https://example.com", clause (2) at "example.com", clause (3) at
"http://", clause (4) at "mailto:x". -/
theorem normalizeUrl_normalization_witness :
    normalizeUrl "https://example.com"
      = Except.ok (URLRec.href ⟨"https", "example.com", none, true, "/"⟩)
    ∧ normalizeUrl "example.com" = checkParsed ("https://" ++ jsTrim "example.com")
    ∧ normalizeUrl "http://" = checkParsed (jsTrim "http://")
    ∧ (∃ e, checkParsed "mailto:x" = Except.error e) :=
  ⟨normalizeUrl_normalization.1 "https://example.com" _ rfl rfl,
   normalizeUrl_normalization.2.1 "example.com" (by decide) (Or.inl rfl) rfl,
   normalizeUrl_normalization.2.2.1 "http://" (by decide) (Or.inl rfl) rfl,
   normalizeUrl_normalization.2.2.2.1 "mailto:x" _ rfl rfl⟩

end Playwright
